import Mathlib

/-!
Shallow embedding of the submission-judging core of the repository:
`backend/judge.py` (`SubmissionJudge.evaluate`) and `backend/runner.py`
(`DockerRunner.run` / `DockerRunner._run_container`, `LANGUAGE_CONFIG`).

External effects are modelled as explicit oracles:
* task storage (`TASKS_DIR` json files) becomes a function
  `tasks : String → Option TaskData`;
* the sandbox runner used by the judge becomes a function
  `Runner` returning `Except` (an `.error` models a raised Python
  exception from the docker layer);
* the docker platform used by `_run_container` becomes a
  `DockerPlatform` record listing the outcome of each platform call
  (`containers.create`, `put_archive`, `start`, the wait/logs capture
  block, `remove`).

Machine-visible strings, exit codes and elapsed milliseconds are kept as
`String`, `Int` and `ℚ` (the Python float is only ever compared with
`max`, which is order-theoretic, so `ℚ` is a faithful carrier).
Every judge embedding additionally returns the trace of runner
invocations (the stdin payload of each call), so that claims of the form
"no execution unit is created" can be stated as an empty trace.
-/

/-- `SupportedLanguage` from `runner.py`: a `str`-valued enum with four
members. -/
inductive SupportedLanguage where
  | python
  | javascript
  | java
  | cpp
deriving Repr, DecidableEq

/-- The string value of each enum member (Python `str` enum: the member
compares equal to its string value, which is how dict lookup behaves). -/
def SupportedLanguage.value : SupportedLanguage → String
  | .python => "python"
  | .javascript => "javascript"
  | .java => "java"
  | .cpp => "cpp"

/-- One entry of `LANGUAGE_CONFIG` in `runner.py`. -/
structure LangDescriptor where
  image : String
  extension : String
  command : String
deriving Repr, DecidableEq

/-- `LANGUAGE_CONFIG` from `runner.py`, as the dict-lookup function.
Because `SupportedLanguage` is a `str` enum, a lookup key compares equal
to a member exactly when it is one of the four member strings; any other
key raises `KeyError`, modelled here as `none`. -/
def LANGUAGE_CONFIG : String → Option LangDescriptor
  | "python" =>
      some ⟨"python:3.12-slim", ".py", "cd /workspace && python Main.py < input.txt"⟩
  | "javascript" =>
      some ⟨"node:22-alpine", ".js", "cd /workspace && node Main.js < input.txt"⟩
  | "java" =>
      some ⟨"openjdk:21-slim", ".java", "cd /workspace && javac Main.java && cat input.txt | java Main"⟩
  | "cpp" =>
      some ⟨"gcc:14", ".cpp", "cd /workspace && g++ Main.cpp -O2 -std=c++20 && cat input.txt | ./a.out"⟩
  | _ => none

/-- `ExecutionResult` dataclass from `runner.py`. -/
structure ExecutionResult where
  stdout : String
  stderr : String
  exit_code : Int
  elapsed_ms : ℚ
  memory_bytes : Int
deriving Repr, DecidableEq

/-- One test case of a task file: `{"input": ..., "output": ...}`. -/
structure TestCase where
  input : String
  output : String
deriving Repr, DecidableEq

/-- The part of a task json file that `evaluate` reads:
`task_data["tests"]["visible"]` and `task_data["tests"]["hidden"]`. -/
structure TaskData where
  visible : List TestCase
  hidden : List TestCase
deriving Repr, DecidableEq

/-- One element of the `visible_results` list built by
`SubmissionJudge.evaluate` (the per-test dict). -/
structure VisibleTestEntry where
  input : String
  expected : String
  stdout : String
  stderr : String
  passed : Bool
  elapsed_ms : ℚ
deriving Repr, DecidableEq

/-- The dict returned by `SubmissionJudge.evaluate`; `metrics` holds the
single key `max_elapsed_ms`. -/
structure JudgeResult where
  task_id : String
  passed : Bool
  visible_tests : List VisibleTestEntry
  hidden_tests_passed : Nat
  metrics_max_elapsed_ms : ℚ
deriving Repr, DecidableEq

/-- Exceptions `evaluate` can raise: `FileNotFoundError` for a missing
task file (the spec calls this rejection `TaskNotFoundError`), or any
exception propagating out of `self.runner.run` (the spec's
`ExecutionInfrastructureError`), carried here as its message. -/
inductive JudgeError where
  | taskNotFound (task_id : String)
  | runnerFailure (msg : String)
deriving Repr, DecidableEq

/-- The judge's view of `DockerRunner.run`: code, language and stdin in,
either an `ExecutionResult` or a raised infrastructure exception out. -/
def Runner : Type :=
  String → SupportedLanguage → String → Except String ExecutionResult

/-- A runner that never raises: every invocation returns the
`ExecutionResult` given by the oracle `f`. -/
def pureRunner (f : String → SupportedLanguage → String → ExecutionResult) : Runner :=
  fun code language input_data => .ok (f code language input_data)

/-- Python `str.strip()` with no argument: drop leading and trailing
whitespace. -/
def strip (s : String) : String :=
  String.mk (((s.data.dropWhile Char.isWhitespace).reverse.dropWhile
    Char.isWhitespace).reverse)

/-- The pass criterion applied to every test case in
`SubmissionJudge.evaluate` (judge.py lines 41-44 and line 60):
`result.stdout.strip() == test["output"].strip() and result.exit_code == 0`. -/
def testSuccess (result : ExecutionResult) (test : TestCase) : Bool :=
  strip result.stdout == strip test.output && result.exit_code == 0

/-- The per-test dict appended to `visible_results` (judge.py lines
47-56). -/
def visibleEntry (test : TestCase) (result : ExecutionResult)
    (success : Bool) : VisibleTestEntry :=
  ⟨test.input, test.output, result.stdout, result.stderr, success,
    result.elapsed_ms⟩

/-- The `for test in visible` loop of `evaluate` (judge.py lines 39-56),
threading `all_passed` and `metrics["max_elapsed_ms"]`.  The second
component of the pair is the trace of runner invocations (their stdin
payloads); a raised runner exception stops the loop and propagates. -/
def evalVisible (runner : Runner) (code : String)
    (language : SupportedLanguage) :
    List TestCase → Bool → ℚ →
      Except String (Bool × ℚ × List VisibleTestEntry) × List String
  | [], all_passed, mx => (.ok (all_passed, mx, []), [])
  | test :: rest, all_passed, mx =>
    match runner code language test.input with
    | .error e => (.error e, [test.input])
    | .ok result =>
      let success := testSuccess result test
      let step := evalVisible runner code language rest
        (all_passed && success) (max mx result.elapsed_ms)
      (match step.1 with
       | .error e => .error e
       | .ok (ap, m, entries) =>
         .ok (ap, m, visibleEntry test result success :: entries),
       test.input :: step.2)

/-- The `for test in hidden` loop of `evaluate` (judge.py lines 58-64),
threading `all_passed`, `metrics["max_elapsed_ms"]` and
`hidden_passed`. -/
def evalHidden (runner : Runner) (code : String)
    (language : SupportedLanguage) :
    List TestCase → Bool → ℚ → Nat →
      Except String (Bool × ℚ × Nat) × List String
  | [], all_passed, mx, hidden_passed => (.ok (all_passed, mx, hidden_passed), [])
  | test :: rest, all_passed, mx, hidden_passed =>
    match runner code language test.input with
    | .error e => (.error e, [test.input])
    | .ok result =>
      let success := testSuccess result test
      let step := evalHidden runner code language rest
        (all_passed && success) (max mx result.elapsed_ms)
        (if success then hidden_passed + 1 else hidden_passed)
      (step.1, test.input :: step.2)

/-- `SubmissionJudge.evaluate` (judge.py lines 26-72).  `tasks` is the
task-storage collaborator (the `TASKS_DIR` json files); a `none` lookup
is the `FileNotFoundError` raise at line 29.  The second component is
the trace of runner invocations made during the call. -/
def evaluate (tasks : String → Option TaskData) (runner : Runner)
    (code : String) (language : SupportedLanguage) (task_id : String) :
    Except JudgeError JudgeResult × List String :=
  match tasks task_id with
  | none => (.error (.taskNotFound task_id), [])
  | some task =>
    match evalVisible runner code language task.visible true 0 with
    | (.error e, tr) => (.error (.runnerFailure e), tr)
    | (.ok (all_passed, mx, visible_results), tr1) =>
      match evalHidden runner code language task.hidden all_passed mx 0 with
      | (.error e, tr2) => (.error (.runnerFailure e), tr1 ++ tr2)
      | (.ok (all_passed2, mx2, hidden_passed), tr2) =>
        (.ok ⟨task_id, all_passed2, visible_results, hidden_passed, mx2⟩,
         tr1 ++ tr2)

deriving instance DecidableEq for Except

/-- Outcome of the `container.wait()` / `container.logs(...)` block of
`DockerRunner._run_container` (runner.py lines 126-133): either all
three calls return (`ok` with the status code and the two log streams),
or a `ContainerError` is raised (caught at line 130), or some other
exception is raised (propagates, but still hits the `finally`). -/
inductive CaptureOutcome where
  | ok (statusCode : Int) (stdoutLog : String) (stderrLog : String)
  | containerError (exit_status : Int) (msg : String)
  | infra (msg : String)
deriving Repr, DecidableEq

/-- Oracle for the docker platform calls made by one
`DockerRunner._run_container` invocation: the outcome of
`containers.create`, `put_archive`, `start`, the wait/logs capture
block, and `remove` (an `.error` models a raised exception), plus the
elapsed wall-clock milliseconds measured around the run. -/
structure DockerPlatform where
  createOutcome : Except String Unit
  putArchiveOutcome : Except String Unit
  startOutcome : Except String Unit
  capture : CaptureOutcome
  removeOutcome : Except String Unit
  elapsed_ms : ℚ
deriving Repr, DecidableEq

/-- What one `_run_container` call did: its return value (or the
exception it raised), whether `containers.create` produced a container,
and whether `container.remove` was invoked on it before the call
ended. -/
structure ContainerRunOutcome where
  result : Except String ExecutionResult
  created : Bool
  removeAttempted : Bool
deriving Repr, DecidableEq

/-- `DockerRunner._run_container` (runner.py lines 96-147) over a
`DockerPlatform` oracle.  Control flow mirrors the source: a failed
`create` raises with no container; a failed `put_archive` removes the
container and re-raises (a failure of that `remove` itself propagates
instead); `container.start()` is guarded by no handler; the wait/logs
block catches `ContainerError` only, and its `finally` always calls
`remove`, swallowing any exception `remove` raises. -/
def run_container (p : DockerPlatform) : ContainerRunOutcome :=
  match p.createOutcome with
  | .error e => ⟨.error e, false, false⟩
  | .ok _ =>
    match p.putArchiveOutcome with
    | .error e =>
      match p.removeOutcome with
      | .error e2 => ⟨.error e2, true, true⟩
      | .ok _ => ⟨.error e, true, true⟩
    | .ok _ =>
      match p.startOutcome with
      | .error e => ⟨.error e, true, false⟩
      | .ok _ =>
        match p.capture with
        | .ok statusCode stdoutLog stderrLog =>
          ⟨.ok ⟨stdoutLog, stderrLog, statusCode, p.elapsed_ms, 0⟩, true, true⟩
        | .containerError exit_status msg =>
          ⟨.ok ⟨"", msg, exit_status, p.elapsed_ms, 0⟩, true, true⟩
        | .infra msg => ⟨.error msg, true, true⟩

/-- Exceptions `DockerRunner.run` can raise: the `KeyError` from the
`LANGUAGE_CONFIG[language]` lookup (the spec's
`UnsupportedLanguageError`), or an exception propagating out of
`_run_container`. -/
inductive RunError where
  | unsupportedLanguage (language : String)
  | infra (msg : String)
deriving Repr, DecidableEq

/-- What one `DockerRunner.run` call did (result plus container
lifecycle facts, as in `ContainerRunOutcome`). -/
structure DockerRunOutcome where
  result : Except RunError ExecutionResult
  created : Bool
  removeAttempted : Bool
deriving Repr, DecidableEq

/-- `DockerRunner.run` (runner.py lines 64-94): the
`LANGUAGE_CONFIG[language]` lookup happens first (line 67, before the
temporary directory and before any container exists); with a descriptor
in hand the call defers to `_run_container`.  `language` is a plain
string key, as Python's dynamic typing permits; the four enum members
look up successfully through their string values. -/
def dockerRun (p : DockerPlatform) (code : String) (language : String)
    (input_data : String) : DockerRunOutcome :=
  match LANGUAGE_CONFIG language with
  | none => ⟨.error (.unsupportedLanguage language), false, false⟩
  | some _ =>
    let c := run_container p
    ⟨Except.mapError RunError.infra c.result, c.created, c.removeAttempted⟩

/-! Concrete fixtures used by witnesses and counterexamples. -/

/-- A one-visible-test, one-hidden-test task. -/
def task0 : TaskData :=
  ⟨[⟨"1 2", "3"⟩], [⟨"4 5", "9"⟩]⟩

/-- A task store holding exactly `task0` under the id `"sum"`. -/
def tasks0 : String → Option TaskData :=
  fun task_id => if task_id = "sum" then some task0 else none

/-- A deterministic execution oracle answering each stdin payload of
`task0` with its expected output, exit code 0 and 5 ms elapsed. -/
def f0 : String → SupportedLanguage → String → ExecutionResult :=
  fun _ _ input_data =>
    ⟨if input_data = "1 2" then "3" else "9", "", 0, 5, 0⟩

/-- A runner whose every invocation raises an infrastructure
exception. -/
def failRunner : Runner :=
  fun _ _ _ => .error "docker daemon unreachable"

/-- A platform on which `container.start()` raises after `create` and
`put_archive` have succeeded. -/
def startFailPlatform : DockerPlatform :=
  ⟨.ok (), .ok (), .error "start failed", .ok 0 "" "", .ok (), 5⟩

/-- A platform on which every call succeeds: exit status 0, stdout
`"3"`, 5 ms. -/
def okPlatform : DockerPlatform :=
  ⟨.ok (), .ok (), .ok (), .ok 0 "3" "", .ok (), 5⟩

/-- A runner that answers the visible test of `task0` but raises on its
hidden test. -/
def hiddenFailRunner : Runner :=
  fun _ _ input_data =>
    if input_data = "4 5" then .error "oom creating container"
    else .ok ⟨"3", "", 0, 5, 0⟩

/-- The `JudgeResult` that `evaluate` produces on `task0` under the
oracle `f0`. -/
def r0 : JudgeResult :=
  ⟨"sum", true, [⟨"1 2", "3", "3", "", true, 5⟩], 1, 5⟩

/-- A task store agreeing with `tasks0` on visible tests but holding a
different hidden test under `"sum"`. -/
def altTasks : String → Option TaskData :=
  fun task_id =>
    if task_id = "sum" then some ⟨[⟨"1 2", "3"⟩], [⟨"7 8", "15"⟩]⟩ else none

/-- The `JudgeResult` that `evaluate` produces on `altTasks` under the
oracle `f0` (the hidden test now fails, so `passed` flips and the count
drops, but the visible entries are unchanged). -/
def rAlt : JudgeResult :=
  ⟨"sum", false, [⟨"1 2", "3", "3", "", true, 5⟩], 0, 5⟩

/-! Helper lemmas (shared; not tied to a single claim). -/

theorem foldl_and_eq {α : Type} (p : α → Bool) (l : List α) (b : Bool) :
    l.foldl (fun acc a => acc && p a) b = (b && l.all p) := by
  induction l generalizing b with
  | nil => simp
  | cons a l ih => simp [ih, Bool.and_assoc]

theorem foldl_max_init_le (l : List ℚ) (init : ℚ) :
    init ≤ l.foldl max init := by
  induction l generalizing init with
  | nil => exact le_refl init
  | cons a l ih => exact le_trans (le_max_left init a) (ih (max init a))

theorem mem_le_foldl_max (l : List ℚ) (init a : ℚ) (h : a ∈ l) :
    a ≤ l.foldl max init := by
  induction l generalizing init with
  | nil => cases h
  | cons b l ih =>
    rcases List.mem_cons.mp h with rfl | h2
    · exact le_trans (le_max_right init a) (foldl_max_init_le l (max init a))
    · exact ih (max init b) h2

theorem all_map_eq {α β : Type} (f : α → β) (p : β → Bool) (l : List α) :
    (l.map f).all p = l.all (fun a => p (f a)) := by
  induction l with
  | nil => rfl
  | cons a l ih => simp [ih]

theorem all_eq_countP_beq_length {α : Type} (p : α → Bool) (l : List α) :
    l.all p = (l.countP p == l.length) := by
  rw [Bool.eq_iff_iff]
  simp [List.all_eq_true, List.countP_eq_length]

/-- Characterization of the visible-test loop under a runner that never
raises: the loop is a left fold over the test list. -/
theorem evalVisible_pure (f : String → SupportedLanguage → String → ExecutionResult)
    (code : String) (language : SupportedLanguage) (tests : List TestCase)
    (all_passed : Bool) (mx : ℚ) :
    evalVisible (pureRunner f) code language tests all_passed mx =
      (.ok
        (tests.foldl (fun b t => b && testSuccess (f code language t.input) t) all_passed,
         tests.foldl (fun m t => max m (f code language t.input).elapsed_ms) mx,
         tests.map fun t =>
           visibleEntry t (f code language t.input)
             (testSuccess (f code language t.input) t)),
       tests.map fun t => t.input) := by
  induction tests generalizing all_passed mx with
  | nil => rfl
  | cons t rest ih => simp [evalVisible, pureRunner, ih]

/-- Characterization of the hidden-test loop under a runner that never
raises. -/
theorem evalHidden_pure (f : String → SupportedLanguage → String → ExecutionResult)
    (code : String) (language : SupportedLanguage) (tests : List TestCase)
    (all_passed : Bool) (mx : ℚ) (hidden_passed : Nat) :
    evalHidden (pureRunner f) code language tests all_passed mx hidden_passed =
      (.ok
        (tests.foldl (fun b t => b && testSuccess (f code language t.input) t) all_passed,
         tests.foldl (fun m t => max m (f code language t.input).elapsed_ms) mx,
         hidden_passed + tests.countP fun t => testSuccess (f code language t.input) t),
       tests.map fun t => t.input) := by
  induction tests generalizing all_passed mx hidden_passed with
  | nil => simp [evalHidden]
  | cons t rest ih =>
    simp only [evalHidden, pureRunner, ih, List.countP_cons, List.map_cons]
    by_cases hs : testSuccess (f code language t.input) t = true <;>
      simp [hs] <;> omega

/-- `evaluate` under a runner that never raises, in closed form. -/
theorem evaluate_pure (f : String → SupportedLanguage → String → ExecutionResult)
    (tasks : String → Option TaskData) (code : String)
    (language : SupportedLanguage) (task_id : String) (task : TaskData)
    (htask : tasks task_id = some task) :
    evaluate tasks (pureRunner f) code language task_id =
      (.ok ⟨task_id,
            (task.visible ++ task.hidden).all
              (fun t => testSuccess (f code language t.input) t),
            task.visible.map (fun t =>
              visibleEntry t (f code language t.input)
                (testSuccess (f code language t.input) t)),
            task.hidden.countP (fun t => testSuccess (f code language t.input) t),
            ((task.visible ++ task.hidden).map
              (fun t => (f code language t.input).elapsed_ms)).foldl max 0⟩,
       (task.visible ++ task.hidden).map fun t => t.input) := by
  simp [evaluate, htask, evalVisible_pure, evalHidden_pure, foldl_and_eq,
    List.all_append, List.foldl_map, List.foldl_append, List.map_append]

/-- If the runner answers every test of a list, the visible loop
returns `.ok` and its trace is exactly the list of inputs. -/
theorem evalVisible_ok_exists (runner : Runner) (code : String)
    (language : SupportedLanguage) (tests : List TestCase)
    (all_passed : Bool) (mx : ℚ)
    (hok : ∀ s ∈ tests, ∃ r, runner code language s.input = .ok r) :
    ∃ ap m entries, evalVisible runner code language tests all_passed mx =
      (.ok (ap, m, entries), tests.map fun s => s.input) := by
  induction tests generalizing all_passed mx with
  | nil => exact ⟨all_passed, mx, [], rfl⟩
  | cons t rest ih =>
    obtain ⟨r, hr⟩ := hok t (List.mem_cons_self t rest)
    obtain ⟨ap, m, entries, hrec⟩ :=
      ih (all_passed && testSuccess r t) (max mx r.elapsed_ms)
        (fun x hx => hok x (List.mem_cons_of_mem t hx))
    exact ⟨ap, m, visibleEntry t r (testSuccess r t) :: entries, by
      simp [evalVisible, hr, hrec]⟩

/-- If the runner answers every test before `t` and raises on `t`, the
visible loop raises that exception and its trace stops at `t`: the
tests after `t` are never submitted to the runner. -/
theorem evalVisible_error_at (runner : Runner) (code : String)
    (language : SupportedLanguage) (pre : List TestCase) (t : TestCase)
    (post : List TestCase) (all_passed : Bool) (mx : ℚ) (e : String)
    (hok : ∀ s ∈ pre, ∃ r, runner code language s.input = .ok r)
    (hfail : runner code language t.input = .error e) :
    evalVisible runner code language (pre ++ t :: post) all_passed mx =
      (.error e, pre.map (fun s => s.input) ++ [t.input]) := by
  induction pre generalizing all_passed mx with
  | nil => simp [evalVisible, hfail]
  | cons s pre ih =>
    obtain ⟨r, hr⟩ := hok s (List.mem_cons_self s pre)
    have hrec := ih (all_passed && testSuccess r s) (max mx r.elapsed_ms)
      (fun x hx => hok x (List.mem_cons_of_mem s hx))
    simp [evalVisible, hr, hrec]

/-- The shape of any `.ok` result of `evaluate` under a runner that
never raises. -/
theorem evaluate_pure_result
    (f : String → SupportedLanguage → String → ExecutionResult)
    (tasks : String → Option TaskData) (code : String)
    (language : SupportedLanguage) (task_id : String) (task : TaskData)
    (r : JudgeResult)
    (htask : tasks task_id = some task)
    (hres : (evaluate tasks (pureRunner f) code language task_id).1 = .ok r) :
    r = ⟨task_id,
         (task.visible ++ task.hidden).all
           (fun t => testSuccess (f code language t.input) t),
         task.visible.map (fun t =>
           visibleEntry t (f code language t.input)
             (testSuccess (f code language t.input) t)),
         task.hidden.countP (fun t => testSuccess (f code language t.input) t),
         ((task.visible ++ task.hidden).map
           (fun t => (f code language t.input).elapsed_ms)).foldl max 0⟩ := by
  rw [evaluate_pure f tasks code language task_id task htask] at hres
  exact (Except.ok.inj hres).symm

/-- Same as `evalVisible_error_at`, for the hidden loop. -/
theorem evalHidden_error_at (runner : Runner) (code : String)
    (language : SupportedLanguage) (pre : List TestCase) (t : TestCase)
    (post : List TestCase) (all_passed : Bool) (mx : ℚ)
    (hidden_passed : Nat) (e : String)
    (hok : ∀ s ∈ pre, ∃ r, runner code language s.input = .ok r)
    (hfail : runner code language t.input = .error e) :
    evalHidden runner code language (pre ++ t :: post) all_passed mx hidden_passed =
      (.error e, pre.map (fun s => s.input) ++ [t.input]) := by
  induction pre generalizing all_passed mx hidden_passed with
  | nil => simp [evalHidden, hfail]
  | cons s pre ih =>
    obtain ⟨r, hr⟩ := hok s (List.mem_cons_self s pre)
    have hrec := ih (all_passed && testSuccess r s) (max mx r.elapsed_ms)
      (if testSuccess r s then hidden_passed + 1 else hidden_passed)
      (fun x hx => hok x (List.mem_cons_of_mem s hx))
    simp [evalHidden, hr, hrec]

/-! Claim theorems. -/

/-- C1: the `passed` field returned by `SubmissionJudge.evaluate` is
true iff every visible test case passed and every hidden test case
passed; a category with zero test cases trivially counts as
all-passed (the universal quantification over an empty list holds). -/
theorem C1_overall_passed_iff_all_tests_pass
    (f : String → SupportedLanguage → String → ExecutionResult)
    (tasks : String → Option TaskData) (code : String)
    (language : SupportedLanguage) (task_id : String) (task : TaskData)
    (r : JudgeResult)
    (htask : tasks task_id = some task)
    (hres : (evaluate tasks (pureRunner f) code language task_id).1 = .ok r) :
    r.passed = true ↔
      ((∀ t ∈ task.visible, testSuccess (f code language t.input) t = true) ∧
       (∀ t ∈ task.hidden, testSuccess (f code language t.input) t = true)) := by
  have hr := evaluate_pure_result f tasks code language task_id task r htask hres
  subst hr
  simp [List.all_append, Bool.and_eq_true, List.all_eq_true]

/-- C1 witness: on the concrete fixture `task0` with oracle `f0`, both
tests pass and `passed` is true. -/
theorem C1_witness :
    tasks0 "sum" = some task0 ∧
    (evaluate tasks0 (pureRunner f0) "code" .python "sum").1 = .ok r0 ∧
    (r0.passed = true ↔
      ((∀ t ∈ task0.visible,
          testSuccess (f0 "code" SupportedLanguage.python t.input) t = true) ∧
       (∀ t ∈ task0.hidden,
          testSuccess (f0 "code" SupportedLanguage.python t.input) t = true))) :=
  ⟨rfl, by decide,
   C1_overall_passed_iff_all_tests_pass f0 tasks0 "code"
     SupportedLanguage.python "sum" task0 r0 rfl (by decide)⟩

/-- C2: each test (visible or hidden) is recorded as passed iff the
captured stdout, stripped of leading and trailing whitespace, equals
the stripped expected output and the exit code is zero. -/
theorem C2_pass_criterion_trimmed_stdout_and_zero_exit
    (f : String → SupportedLanguage → String → ExecutionResult)
    (tasks : String → Option TaskData) (code : String)
    (language : SupportedLanguage) (task_id : String) (task : TaskData)
    (r : JudgeResult)
    (htask : tasks task_id = some task)
    (hres : (evaluate tasks (pureRunner f) code language task_id).1 = .ok r) :
    (r.visible_tests.map fun entry => entry.passed)
      = (task.visible.map fun t =>
          strip (f code language t.input).stdout == strip t.output
            && ((f code language t.input).exit_code == 0)) ∧
    r.hidden_tests_passed
      = task.hidden.countP (fun t =>
          strip (f code language t.input).stdout == strip t.output
            && ((f code language t.input).exit_code == 0)) := by
  have hr := evaluate_pure_result f tasks code language task_id task r htask hres
  subst hr
  constructor
  · simp [List.map_map, Function.comp, visibleEntry, testSuccess]
  · simp [testSuccess]

/-- C2 witness: the criterion evaluated on the concrete fixture. -/
theorem C2_witness :
    (evaluate tasks0 (pureRunner f0) "code" .python "sum").1 = .ok r0 ∧
    (r0.visible_tests.map fun entry => entry.passed)
      = (task0.visible.map fun t =>
          strip (f0 "code" SupportedLanguage.python t.input).stdout == strip t.output
            && ((f0 "code" SupportedLanguage.python t.input).exit_code == 0)) ∧
    r0.hidden_tests_passed
      = task0.hidden.countP (fun t =>
          strip (f0 "code" SupportedLanguage.python t.input).stdout == strip t.output
            && ((f0 "code" SupportedLanguage.python t.input).exit_code == 0)) :=
  ⟨by decide,
   C2_pass_criterion_trimmed_stdout_and_zero_exit f0 tasks0 "code"
     SupportedLanguage.python "sum" task0 r0 rfl (by decide)⟩

/-- C6: `hidden_tests_passed` is a natural number (hence non-negative)
and never exceeds the number of hidden test cases. -/
theorem C6_hidden_passed_bounded
    (f : String → SupportedLanguage → String → ExecutionResult)
    (tasks : String → Option TaskData) (code : String)
    (language : SupportedLanguage) (task_id : String) (task : TaskData)
    (r : JudgeResult)
    (htask : tasks task_id = some task)
    (hres : (evaluate tasks (pureRunner f) code language task_id).1 = .ok r) :
    r.hidden_tests_passed ≤ task.hidden.length ∧
    0 ≤ r.hidden_tests_passed := by
  have hr := evaluate_pure_result f tasks code language task_id task r htask hres
  subst hr
  exact ⟨List.countP_le_length _, Nat.zero_le _⟩

/-- C6 witness: the bound on the concrete fixture. -/
theorem C6_witness :
    tasks0 "sum" = some task0 ∧
    (evaluate tasks0 (pureRunner f0) "code" .python "sum").1 = .ok r0 ∧
    (r0.hidden_tests_passed ≤ task0.hidden.length ∧
     0 ≤ r0.hidden_tests_passed) :=
  ⟨rfl, by decide,
   C6_hidden_passed_bounded f0 tasks0 "code"
     SupportedLanguage.python "sum" task0 r0 rfl (by decide)⟩

/-- C10: the `visible_tests` list has exactly one entry per visible
test case, in suite order, and each entry echoes the test's input and
expected output together with the actual stdout, stderr, pass flag and
elapsed time of its execution. -/
theorem C10_visible_results_echo_tests_in_order
    (f : String → SupportedLanguage → String → ExecutionResult)
    (tasks : String → Option TaskData) (code : String)
    (language : SupportedLanguage) (task_id : String) (task : TaskData)
    (r : JudgeResult)
    (htask : tasks task_id = some task)
    (hres : (evaluate tasks (pureRunner f) code language task_id).1 = .ok r) :
    r.visible_tests.length = task.visible.length ∧
    r.visible_tests = task.visible.map fun t =>
      { input := t.input
        expected := t.output
        stdout := (f code language t.input).stdout
        stderr := (f code language t.input).stderr
        passed := testSuccess (f code language t.input) t
        elapsed_ms := (f code language t.input).elapsed_ms } := by
  have hr := evaluate_pure_result f tasks code language task_id task r htask hres
  subst hr
  exact ⟨by simp, rfl⟩

/-- C10 witness: the echo property on the concrete fixture. -/
theorem C10_witness :
    (evaluate tasks0 (pureRunner f0) "code" .python "sum").1 = .ok r0 ∧
    r0.visible_tests.length = task0.visible.length ∧
    r0.visible_tests = task0.visible.map fun t =>
      { input := t.input
        expected := t.output
        stdout := (f0 "code" SupportedLanguage.python t.input).stdout
        stderr := (f0 "code" SupportedLanguage.python t.input).stderr
        passed := testSuccess (f0 "code" SupportedLanguage.python t.input) t
        elapsed_ms := (f0 "code" SupportedLanguage.python t.input).elapsed_ms } :=
  ⟨by decide,
   C10_visible_results_echo_tests_in_order f0 tasks0 "code"
     SupportedLanguage.python "sum" task0 r0 rfl (by decide)⟩

/-- C5: `metrics.max_elapsed_ms` equals the `foldl max`-accumulated
maximum of the elapsed times of all results produced during the call
(visible and hidden), is never less than any of them, and at every
point of both loops the accumulator equals the running maximum of the
elapsed times seen so far (stated for every prefix of each loop). -/
theorem C5_max_elapsed_is_running_maximum
    (f : String → SupportedLanguage → String → ExecutionResult)
    (tasks : String → Option TaskData) (code : String)
    (language : SupportedLanguage) (task_id : String) (task : TaskData)
    (r : JudgeResult)
    (htask : tasks task_id = some task)
    (hres : (evaluate tasks (pureRunner f) code language task_id).1 = .ok r) :
    r.metrics_max_elapsed_ms
        = ((task.visible ++ task.hidden).map
            fun t => (f code language t.input).elapsed_ms).foldl max 0 ∧
    (∀ t ∈ task.visible ++ task.hidden,
        (f code language t.input).elapsed_ms ≤ r.metrics_max_elapsed_ms) ∧
    (∀ n : Nat, ∃ b entries,
        (evalVisible (pureRunner f) code language (task.visible.take n) true 0).1
          = .ok (b,
              ((task.visible.take n).map
                fun t => (f code language t.input).elapsed_ms).foldl max 0,
              entries)) ∧
    (∀ n : Nat, ∃ b k,
        (evalHidden (pureRunner f) code language (task.hidden.take n)
            (task.visible.all fun t => testSuccess (f code language t.input) t)
            ((task.visible.map fun t => (f code language t.input).elapsed_ms).foldl max 0)
            0).1
          = .ok (b,
              ((task.hidden.take n).map
                fun t => (f code language t.input).elapsed_ms).foldl max
                ((task.visible.map fun t => (f code language t.input).elapsed_ms).foldl max 0),
              k)) := by
  have hr := evaluate_pure_result f tasks code language task_id task r htask hres
  subst hr
  refine ⟨rfl, ?_, ?_, ?_⟩
  · intro t ht
    exact mem_le_foldl_max _ 0 _
      (List.mem_map_of_mem (fun t => (f code language t.input).elapsed_ms) ht)
  · intro n
    refine ⟨(task.visible.take n).foldl
        (fun b t => b && testSuccess (f code language t.input) t) true,
      (task.visible.take n).map (fun t =>
        visibleEntry t (f code language t.input)
          (testSuccess (f code language t.input) t)), ?_⟩
    simp only [evalVisible_pure, List.foldl_map]
  · intro n
    refine ⟨(task.hidden.take n).foldl
        (fun b t => b && testSuccess (f code language t.input) t)
        (task.visible.all fun t => testSuccess (f code language t.input) t),
      0 + (task.hidden.take n).countP
        (fun t => testSuccess (f code language t.input) t), ?_⟩
    simp only [evalHidden_pure, List.foldl_map]

/-- C5 witness: the maximum property on the concrete fixture (first
conjunct of the theorem's conclusion, via the theorem). -/
theorem C5_witness :
    tasks0 "sum" = some task0 ∧
    (evaluate tasks0 (pureRunner f0) "code" .python "sum").1 = .ok r0 ∧
    r0.metrics_max_elapsed_ms
      = ((task0.visible ++ task0.hidden).map
          fun t => (f0 "code" SupportedLanguage.python t.input).elapsed_ms).foldl max 0 ∧
    (∀ t ∈ task0.visible ++ task0.hidden,
        (f0 "code" SupportedLanguage.python t.input).elapsed_ms
          ≤ r0.metrics_max_elapsed_ms) := by
  have h := C5_max_elapsed_is_running_maximum f0 tasks0 "code"
    SupportedLanguage.python "sum" task0 r0 rfl (by decide)
  exact ⟨rfl, by decide, h.1, h.2.1⟩

/-- C7: the returned structure carries hidden-test information only as
the aggregate `hidden_tests_passed`: with the same execution oracle,
two evaluations whose tasks share the visible list but have arbitrary
different hidden lists produce identical `visible_tests`, and `passed`
is a function of the visible entries, the hidden count and the hidden
list length alone. -/
theorem C7_hidden_content_noninterference
    (f : String → SupportedLanguage → String → ExecutionResult)
    (tasks1 tasks2 : String → Option TaskData) (code : String)
    (language : SupportedLanguage) (task_id : String)
    (vis h1 h2 : List TestCase) (r1 r2 : JudgeResult)
    (htask1 : tasks1 task_id = some ⟨vis, h1⟩)
    (htask2 : tasks2 task_id = some ⟨vis, h2⟩)
    (hres1 : (evaluate tasks1 (pureRunner f) code language task_id).1 = .ok r1)
    (hres2 : (evaluate tasks2 (pureRunner f) code language task_id).1 = .ok r2) :
    r1.visible_tests = r2.visible_tests ∧
    r1.passed = (r1.visible_tests.all (fun entry => entry.passed)
        && (r1.hidden_tests_passed == h1.length)) := by
  have hr1 := evaluate_pure_result f tasks1 code language task_id ⟨vis, h1⟩ r1 htask1 hres1
  have hr2 := evaluate_pure_result f tasks2 code language task_id ⟨vis, h2⟩ r2 htask2 hres2
  subst hr1
  subst hr2
  refine ⟨rfl, ?_⟩
  simp [List.all_append, all_map_eq, visibleEntry,
    ← all_eq_countP_beq_length]

/-- C7 witness: changing the hidden test of `task0` leaves the visible
entries untouched. -/
theorem C7_witness :
    tasks0 "sum" = some ⟨[⟨"1 2", "3"⟩], [⟨"4 5", "9"⟩]⟩ ∧
    altTasks "sum" = some ⟨[⟨"1 2", "3"⟩], [⟨"7 8", "15"⟩]⟩ ∧
    (evaluate tasks0 (pureRunner f0) "code" .python "sum").1 = .ok r0 ∧
    (evaluate altTasks (pureRunner f0) "code" .python "sum").1 = .ok rAlt ∧
    r0.visible_tests = rAlt.visible_tests ∧
    r0.passed = (r0.visible_tests.all (fun entry => entry.passed)
        && (r0.hidden_tests_passed == [(⟨"4 5", "9"⟩ : TestCase)].length)) := by
  have h := C7_hidden_content_noninterference f0 tasks0 altTasks "code"
    SupportedLanguage.python "sum" [⟨"1 2", "3"⟩] [⟨"4 5", "9"⟩] [⟨"7 8", "15"⟩]
    r0 rAlt rfl rfl (by decide) (by decide)
  exact ⟨rfl, rfl, by decide, by decide, h.1, h.2⟩

/-- C8: an unknown `task_id` makes `evaluate` fail with the
task-not-found error (the `FileNotFoundError` raise, the spec's
`TaskNotFoundError`), with an empty runner trace: no test case is run
and no execution unit is created, for any runner. -/
theorem C8_unknown_task_rejected_before_execution
    (tasks : String → Option TaskData) (runner : Runner) (code : String)
    (language : SupportedLanguage) (task_id : String)
    (htask : tasks task_id = none) :
    evaluate tasks runner code language task_id
      = (.error (.taskNotFound task_id), []) := by
  simp [evaluate, htask]

/-- C8 witness: the rejection on a concrete missing id. -/
theorem C8_witness :
    tasks0 "missing" = none ∧
    evaluate tasks0 failRunner "code" .python "missing"
      = (.error (.taskNotFound "missing"), []) :=
  ⟨by decide,
   C8_unknown_task_rejected_before_execution tasks0 failRunner "code"
     SupportedLanguage.python "missing" (by decide)⟩

/-- C9: a language id outside `LANGUAGE_CONFIG` makes `DockerRunner.run`
fail with the unsupported-language error (the `KeyError` from the dict
lookup, the spec's `UnsupportedLanguageError`) before any container is
created, and every catalog language's descriptor lookup succeeds. -/
theorem C9_unsupported_language_rejected_before_unit_creation
    (p : DockerPlatform) (code : String) (language : String)
    (input_data : String)
    (h : LANGUAGE_CONFIG language = none) :
    dockerRun p code language input_data
        = ⟨.error (.unsupportedLanguage language), false, false⟩ ∧
    ∀ l : SupportedLanguage, (LANGUAGE_CONFIG l.value).isSome = true := by
  refine ⟨?_, ?_⟩
  · simp [dockerRun, h]
  · intro l
    cases l <;> rfl

/-- C9 witness: the rejection at the concrete id `"ruby"`. -/
theorem C9_witness :
    LANGUAGE_CONFIG "ruby" = none ∧
    dockerRun okPlatform "code" "ruby" ""
        = ⟨.error (.unsupportedLanguage "ruby"), false, false⟩ ∧
    ∀ l : SupportedLanguage, (LANGUAGE_CONFIG l.value).isSome = true :=
  ⟨rfl,
   (C9_unsupported_language_rejected_before_unit_creation okPlatform
     "code" "ruby" "" rfl).1,
   (C9_unsupported_language_rejected_before_unit_creation okPlatform
     "code" "ruby" "" rfl).2⟩

/-- C3 counterexample: `evaluate` has no handler around its runner
calls, so a runner infrastructure failure on a test case is not
converted into a failed test — at this concrete input the exception
propagates to the caller, contradicting the claim. -/
theorem C3_counterexample_runner_error_propagates :
    (evaluate tasks0 failRunner "code" .python "sum").1
      = .error (.runnerFailure "docker daemon unreachable") := by
  decide

/-- C3 amended: if the Runner raises an infrastructure error on some
test case, the exception propagates out of `evaluate` and the remaining
test cases are not run (the trace ends at the failing test).  First
conjunct: failure inside the visible loop; second: all visible tests
succeed and the failure occurs inside the hidden loop. -/
theorem C3_amended_runner_error_aborts_evaluation
    (tasks : String → Option TaskData) (runner : Runner) (code : String)
    (language : SupportedLanguage) (task_id : String) (task : TaskData)
    (htask : tasks task_id = some task) :
    (∀ (pre : List TestCase) (t : TestCase) (post : List TestCase) (e : String),
      task.visible = pre ++ t :: post →
      (∀ s ∈ pre, ∃ r, runner code language s.input = .ok r) →
      runner code language t.input = .error e →
      evaluate tasks runner code language task_id
        = (.error (.runnerFailure e),
           pre.map (fun s => s.input) ++ [t.input])) ∧
    (∀ (pre : List TestCase) (t : TestCase) (post : List TestCase) (e : String),
      task.hidden = pre ++ t :: post →
      (∀ s ∈ task.visible, ∃ r, runner code language s.input = .ok r) →
      (∀ s ∈ pre, ∃ r, runner code language s.input = .ok r) →
      runner code language t.input = .error e →
      evaluate tasks runner code language task_id
        = (.error (.runnerFailure e),
           task.visible.map (fun s => s.input)
             ++ (pre.map (fun s => s.input) ++ [t.input]))) := by
  constructor
  · intro pre t post e hsplit hok hfail
    have hv := evalVisible_error_at runner code language pre t post true 0 e hok hfail
    simp [evaluate, htask, hsplit, hv]
  · intro pre t post e hsplit hokvis hok hfail
    obtain ⟨ap, m, entries, hv⟩ :=
      evalVisible_ok_exists runner code language task.visible true 0 hokvis
    have hh := evalHidden_error_at runner code language pre t post ap m 0 e hok hfail
    simp [evaluate, htask, hv, hsplit, hh]

/-- C3 witness: both conjuncts of the amended claim exercised on
concrete fixtures (failure on the visible test; failure on the hidden
test after the visible test succeeded). -/
theorem C3_witness :
    task0.visible = [] ++ (⟨"1 2", "3"⟩ : TestCase) :: [] ∧
    failRunner "code" SupportedLanguage.python "1 2"
      = .error "docker daemon unreachable" ∧
    evaluate tasks0 failRunner "code" .python "sum"
      = (.error (.runnerFailure "docker daemon unreachable"), ["1 2"]) ∧
    task0.hidden = [] ++ (⟨"4 5", "9"⟩ : TestCase) :: [] ∧
    hiddenFailRunner "code" SupportedLanguage.python "4 5"
      = .error "oom creating container" ∧
    evaluate tasks0 hiddenFailRunner "code" .python "sum"
      = (.error (.runnerFailure "oom creating container"), ["1 2", "4 5"]) := by
  refine ⟨rfl, rfl, ?_, rfl, rfl, ?_⟩
  · have h := (C3_amended_runner_error_aborts_evaluation tasks0 failRunner
      "code" SupportedLanguage.python "sum" task0 rfl).1
      [] ⟨"1 2", "3"⟩ [] "docker daemon unreachable" rfl
      (by intro s hs; cases hs) rfl
    simpa using h
  · have h := (C3_amended_runner_error_aborts_evaluation tasks0 hiddenFailRunner
      "code" SupportedLanguage.python "sum" task0 rfl).2
      [] ⟨"4 5", "9"⟩ [] "oom creating container" rfl
      (by
        intro s hs
        have hs2 : s = (⟨"1 2", "3"⟩ : TestCase) := by
          simpa [task0] using hs
        subst hs2
        exact ⟨⟨"3", "", 0, 5, 0⟩, rfl⟩)
      (by intro s hs; cases hs) rfl
    simpa using h

/-- C4: contrary to the claim, the container is not destroyed on every
exit path of `_run_container`: when `container.start()` raises (after
`create` and `put_archive` succeeded), the exception propagates with no
`remove` call, leaking the created container — while on the successful
path the container is removed as claimed. -/
theorem C4_container_not_removed_on_start_failure :
    run_container startFailPlatform
      = ⟨.error "start failed", true, false⟩ ∧
    run_container okPlatform
      = ⟨.ok ⟨"3", "", 0, 5, 0⟩, true, true⟩ := by
  exact ⟨rfl, rfl⟩
